import Mathlib

/-!
Verification of the TikTok-Slides-Maker slide layout and interaction engine
and of its server-side tool boundary.

The definitions below are shallow embeddings of:
  * the word-wrap loop of the layout engine
    (src/components/SlidePreview.tsx, layout useMemo; src/services/imageService.ts),
  * the pointer drag/snap/containment logic and the asymmetric resize logic
    (src/components/SlidePreview.tsx, handleWindowPointerMove / handlePointerDown),
  * the in-memory slide store and the MCP tool dispatch of the server
    (src/unnamed/part_000).

JavaScript numbers are modelled as rationals (ℚ); the JS falsy defaulting
idiom `v || d` on numbers (0 and undefined fall back to d) is `jsNumOr`,
and on strings (empty string and undefined fall back) is `jsStrOpt`.
-/

/-- JS `v || d` for an optional number: `undefined` and `0` fall back to `d`. -/
def jsNumOr (v : Option ℚ) (d : ℚ) : ℚ :=
  match v with
  | some x => if x = 0 then d else x
  | none => d

/-- JS truthiness of an optional string: `undefined` and `""` are falsy. -/
def jsStrOpt (v : Option String) : Option String :=
  match v with
  | some s => if s = "" then none else some s
  | none => none

/-- JS `Math.max` on two rationals (an executable `max`). -/
def jsMax (a b : ℚ) : ℚ := if a ≤ b then b else a

/-- JS `Math.min` on two rationals (an executable `min`). -/
def jsMin (a b : ℚ) : ℚ := if a ≤ b then a else b

/-! ## Data model (src/types.ts) -/

/-- `SlideTextLayer` of src/types.ts. Optional fields are `Option`. -/
structure SlideTextLayer where
  id : String
  type : String
  content : String
  customName : Option String := none
  fontSize : Option ℚ := none
  fontFamily : Option String := none
  width : Option ℚ := none
  x : ℚ
  y : ℚ
  selected : Option Bool := none
  alignment : Option String := none
  lineHeight : Option ℚ := none
  letterSpacing : Option ℚ := none
  stroke : Option Bool := none
  strokeColor : Option String := none
  strokeWidth : Option ℚ := none
  uppercase : Option Bool := none
deriving DecidableEq

/-- `TextSettings` of src/types.ts. -/
structure TextSettings where
  fontSize : ℚ
  fontFamily : String
  color : String
  strokeColor : String
  strokeWidth : ℚ
  shadow : Bool
  shadowBlur : ℚ
  shadowOpacity : ℚ
  shadowColor : Option String := none
  shadowOffsetX : Option ℚ := none
  shadowOffsetY : Option ℚ := none
  positionX : ℚ
  positionY : ℚ
  alignment : String
  constrainToSlide : Option Bool := none
deriving DecidableEq

/-- `ImageEffects` of src/types.ts. -/
structure ImageEffects where
  enabled : Bool
  grayscale : Bool
  brightness : ℚ
  contrast : ℚ
  saturation : ℚ
  imageOffset : ℚ
  imageOffsetY : ℚ
deriving DecidableEq

/-- `SlideData` of src/types.ts. -/
structure SlideData where
  id : String
  image : String
  layers : List SlideTextLayer
  template : String
  settings : TextSettings
  effects : ImageEffects
deriving DecidableEq

/-! ## Layout geometry consumed by the interaction controller

`LayerGeom` is the per-layer slice of the `layout` useMemo result that the
drag/containment code reads (`height`, `boundaryWidthPx`,
`actualContentWidth`), src/components/SlidePreview.tsx. -/

structure LayerGeom where
  id : String
  height : ℚ
  boundaryWidthPx : ℚ
  actualContentWidth : ℚ
deriving DecidableEq

/-- Font size resolution of the layout pass and of `generateSlideImage`:
`let baseSize = layer.fontSize || 60` (src/components/SlidePreview.tsx and
src/services/imageService.ts). -/
def resolveBaseSize (fontSize : Option ℚ) : ℚ := jsNumOr fontSize 60

/-- `size = baseSize * globalScale * fontScaleFactor` of the layout pass. -/
def effectiveFontSize (layer : SlideTextLayer) (globalScale fontScaleFactor : ℚ) : ℚ :=
  resolveBaseSize layer.fontSize * globalScale * fontScaleFactor

/-! ## Interaction controller (src/components/SlidePreview.tsx) -/

/-- Replace the first element satisfying `p` by its image under `f`
(the JS `findIndex` + in-place write idiom of `handleWindowPointerMove`). -/
def updateFirstLayer (p : SlideTextLayer → Bool) (f : SlideTextLayer → SlideTextLayer) :
    List SlideTextLayer → List SlideTextLayer
  | [] => []
  | l :: rest => if p l then f l :: rest else l :: updateFirstLayer p f rest

/-- First element of a slide list satisfying `p` replaced by `f` of it. -/
def updateFirstSlide (p : SlideData → Bool) (f : SlideData → SlideData) :
    List SlideData → List SlideData
  | [] => []
  | s :: rest => if p s then f s :: rest else s :: updateFirstSlide p f rest

/-- The `deltaLeftPx/deltaRightPx` pair of the containment logic
(alignment-aware box extents relative to the anchor), SlidePreview.tsx. -/
def alignDeltas (geom : LayerGeom) (align : String) (paddingPx : ℚ) : ℚ × ℚ :=
  if align = "left" then
    (-(geom.boundaryWidthPx / 2) - paddingPx,
     -(geom.boundaryWidthPx / 2) + geom.actualContentWidth + paddingPx)
  else if align = "right" then
    (geom.boundaryWidthPx / 2 - geom.actualContentWidth - paddingPx,
     geom.boundaryWidthPx / 2 + paddingPx)
  else
    (-(geom.actualContentWidth / 2) - paddingPx,
     geom.actualContentWidth / 2 + paddingPx)

/-- The CONSTRAIN LOGIC of the drag branch of `handleWindowPointerMove`:
clamp a target anchor `(tX, tY)` (percent) into the layer's envelope. -/
def constrainXY (geom : LayerGeom) (align : String) (refW refH tX tY : ℚ) : ℚ × ℚ :=
  let paddingPx := 12 * (refW / 1000)
  let boxHPx := geom.height + paddingPx * 2
  let halfHPct := boxHPx / refH * 100 / 2
  let tY2 := jsMax halfHPct (jsMin (100 - halfHPct) tY)
  let d := alignDeltas geom align paddingPx
  let minX := -(d.1 / refW * 100)
  let maxX := 100 - d.2 / refW * 100
  (jsMax minX (jsMin maxX tX), tY2)

/-- The rendered selection/hit box of a layer (render pass of
SlidePreview.tsx, not in a resize gesture): origin `(boxX, boxY)` and size
`(boxW, boxH)` in pixels for anchor `(x, y)` in percent. -/
def renderedBox (geom : LayerGeom) (align : String) (refW refH x y : ℚ) : ℚ × ℚ × ℚ × ℚ :=
  let centerX := x / 100 * refW
  let centerY := y / 100 * refH
  let padding := 12 * (refW / 1000)
  let displayW := geom.actualContentWidth
  let boxW := displayW + padding * 2
  let boxX :=
    if align = "left" then centerX - geom.boundaryWidthPx / 2 - padding
    else if align = "right" then centerX + geom.boundaryWidthPx / 2 - displayW - padding
    else centerX - displayW / 2 - padding
  let boxH := geom.height + padding * 2
  let boxY := centerY - geom.height / 2 - padding
  (boxX, boxY, boxW, boxH)

/-- The horizontal snap target of the snap logic: `50 - offsetPercent`,
where the offset depends on the dragged layer's alignment. -/
def snapTargetX (slide : SlideData) (geom : LayerGeom) (refW : ℚ) (id : String) : ℚ :=
  let align := ((slide.layers.find? (fun l => l.id = id)).bind
    (fun l => l.alignment)).getD "center"
  let offsetPx :=
    if align = "left" then (geom.actualContentWidth - geom.boundaryWidthPx) / 2
    else if align = "right" then (geom.boundaryWidthPx - geom.actualContentWidth) / 2
    else 0
  50 - offsetPx / refW * 100

/-- The snap step of the drag branch: turns the raw percent delta into the
final delta and the two snap-indicator flags. Snap only fires when exactly
one layer is in `initialPositions` and its geometry is available. -/
def snapDelta (slide : SlideData) (ips : List (String × ℚ × ℚ)) (geos : List LayerGeom)
    (refW rawDx rawDy : ℚ) : ℚ × ℚ × Bool × Bool :=
  match ips with
  | [(id, px, py)] =>
    match geos.find? (fun g => g.id = id) with
    | some geom =>
      let tX := snapTargetX slide geom refW id
      let hx : Bool := |px + rawDx - tX| < 3 / 2
      let hy : Bool := |py + rawDy - 50| < 3 / 2
      (if hx then tX - px else rawDx, if hy then 50 - py else rawDy, hx, hy)
    | none => (rawDx, rawDy, false, false)
  | _ => (rawDx, rawDy, false, false)

/-- Apply the final drag delta to one `initialPositions` entry, with the
containment clamp when `constrain` is set (drag branch of
`handleWindowPointerMove`). -/
def applyDragEntry (constrain : Bool) (geos : List LayerGeom) (refW refH fdx fdy : ℚ)
    (lys : List SlideTextLayer) (e : String × ℚ × ℚ) : List SlideTextLayer :=
  updateFirstLayer (fun l => l.id = e.1) (fun l =>
    let tX := e.2.1 + fdx
    let tY := e.2.2 + fdy
    if constrain then
      match geos.find? (fun g => g.id = e.1) with
      | some geom =>
        if 0 < refW ∧ 0 < refH then
          let c := constrainXY geom (l.alignment.getD "center") refW refH tX tY
          { l with x := c.1, y := c.2 }
        else { l with x := tX, y := tY }
      | none => { l with x := tX, y := tY }
    else { l with x := tX, y := tY }) lys

/-- The whole DRAG OPERATION of `handleWindowPointerMove` for one pointer
move: snap, then per-entry application with optional containment. Returns
the new layer list and the `(showSnapX, showSnapY)` indicator flags. -/
def dragMove (slide : SlideData) (ips : List (String × ℚ × ℚ)) (geos : List LayerGeom)
    (refW refH rawDx rawDy : ℚ) : List SlideTextLayer × Bool × Bool :=
  let constrain := slide.settings.constrainToSlide.getD false
  let s := snapDelta slide ips geos refW rawDx rawDy
  let newLayers := ips.foldl (applyDragEntry constrain geos refW refH s.1 s.2.1) slide.layers
  (newLayers, s.2.2.1, s.2.2.2)

/-! ## Resize gesture -/

inductive HandleSide where
  | left
  | right
deriving DecidableEq

/-- Pixel positions of a layer's left and right edges, as recorded once at
resize pointer-down (`handlePointerDown`): center `(x/100)·W`, width
`((width || 80)/100)·W`. -/
def layerEdges (layer : SlideTextLayer) (rectW : ℚ) : ℚ × ℚ :=
  let cx := layer.x / 100 * rectW
  let w := jsNumOr layer.width 80 / 100 * rectW
  (cx - w / 2, cx + w / 2)

/-- Raw `(newWidthPx, newCenterPx)` of the RESIZE OPERATION before the
percent conversion: pointer clamped to the canvas when `constrain`, then
kept at least 10% of the slide width away from the fixed opposite edge. -/
def resizeRawGeom (constrain : Bool) (rectW fixed : ℚ) (side : HandleSide)
    (pointerRaw : ℚ) : ℚ × ℚ :=
  let p1 := if constrain then jsMax 0 (jsMin rectW pointerRaw) else pointerRaw
  let minWidthPx := rectW * (1 / 10)
  match side with
  | .left =>
    let p2 := jsMin p1 (fixed - minWidthPx)
    (fixed - p2, p2 + (fixed - p2) / 2)
  | .right =>
    let p2 := jsMax p1 (fixed + minWidthPx)
    (p2 - fixed, fixed + (p2 - fixed) / 2)

/-- The RESIZE OPERATION of `handleWindowPointerMove`: new `width` and `x`
percentages written to the layer, with the width capped at 100 when the
constrain flag is on. -/
def resizeMove (constrain : Bool) (rectW fixed : ℚ) (side : HandleSide)
    (pointerRaw : ℚ) (layer : SlideTextLayer) : SlideTextLayer :=
  let g := resizeRawGeom constrain rectW fixed side pointerRaw
  let wPct := g.1 / rectW * 100
  let xPct := g.2 / rectW * 100
  let wPct2 := if 100 < wPct ∧ constrain then 100 else wPct
  { layer with width := some wPct2, x := xPct }

/-! ## Word wrap (layout useMemo of SlidePreview.tsx; same loop in
src/services/imageService.ts and in the server renderer of
src/unnamed/part_000)

Strings are modelled as `List Char`; the backend text measurer
`ctx.measureText(s).width` is an arbitrary parameter `m : List Char → ℚ`.
`splitWs` is JS `p.split(/\s+/)` (runs of whitespace as separators, with
the empty-string artifacts JS produces at the ends); `splitNl` is JS
`content.split('\n')`. -/

/-- The ASCII whitespace characters of the JS `\s` class relevant here. -/
def isWs (c : Char) : Bool := c = ' ' || c = '\t' || c = '\n' || c = '\r'

/-- State machine for `split(/\s+/)`: `inRun` says the previous character
was whitespace already consumed by the current separator run, `acc` is the
current token reversed. -/
def swAux (inRun : Bool) (acc : List Char) : List Char → List (List Char)
  | [] => [acc.reverse]
  | c :: rest =>
    if isWs c then
      if inRun then swAux true [] rest
      else acc.reverse :: swAux true [] rest
    else swAux false (c :: acc) rest

/-- JS `p.split(/\s+/)`. -/
def splitWs (p : List Char) : List (List Char) := swAux false [] p

/-- JS `content.split('\n')`. -/
def splitNl : List Char → List (List Char)
  | [] => [[]]
  | c :: rest =>
    if c = '\n' then [] :: splitNl rest
    else
      match splitNl rest with
      | [] => [[c]]
      | h :: t => (c :: h) :: t

/-- The greedy accumulation loop of the wrap: `cur` is `currentLine`,
the test line is `currentLine + " " + words[i]`, kept while its measured
width stays within the budget `b`, otherwise the current line is closed. -/
def wrapWords (m : List Char → ℚ) (b : ℚ) (cur : List Char) :
    List (List Char) → List (List Char)
  | [] => [cur]
  | w :: ws =>
    let t := cur ++ ' ' :: w
    if m t ≤ b then wrapWords m b t ws else cur :: wrapWords m b w ws

/-- Wrap of one paragraph: `words = p.split(/\s+/)`, `currentLine = words[0]`. -/
def wrapParagraph (m : List Char → ℚ) (b : ℚ) (p : List Char) : List (List Char) :=
  match splitWs p with
  | [] => []
  | w :: ws => wrapWords m b w ws

/-- The full wrap of a layer's content: paragraphs split on explicit
newlines, each wrapped independently, lines concatenated in order. -/
def wrapContent (m : List Char → ℚ) (b : ℚ) (content : List Char) : List (List Char) :=
  ((splitNl content).map (wrapParagraph m b)).flatten

/-- `words.join(" ")` for a group of words: space-intercalation, the shape
every produced wrap line has. -/
def joinSpace : List (List Char) → List Char
  | [] => []
  | [w] => w
  | w :: ws => w ++ ' ' :: joinSpace ws

/-! ## Server tool boundary (src/unnamed/part_000)

The in-memory store is a `List SlideData`; `generateId()` is modelled by a
parameter `fresh : Nat → String` giving the successive ids a tool call
generates; `renderSlideOnServer` is a parameter returning either the data
URL of the rendered image or a failure message (its canvas work is outside
this development). Express sends every tool result with HTTP status 200 —
the error results included — and 404 only for an unknown tool name. -/

/-- One argument object of a `/mcp/execute` request: every field the tools
destructure, absent fields being `none` (JS `undefined`). -/
structure ToolArgs where
  slide_id : Option String := none
  layer_id : Option String := none
  text : Option String := none
  background_image_url : Option String := none
  image_url : Option String := none
  type : Option String := none
  y_position : Option ℚ := none
  new_index : Option ℤ := none
  fontSize : Option ℚ := none
  fontFamily : Option String := none
  x : Option ℚ := none
  y : Option ℚ := none
  width : Option ℚ := none
  alignment : Option String := none
  color : Option String := none
  brightness : Option ℚ := none
  contrast : Option ℚ := none
  grayscale : Option Bool := none
deriving DecidableEq

/-- The JSON value a tool returns: `{error}` or one of the `{status:
'success', ...}` shapes of src/unnamed/part_000. -/
inductive ToolResponse where
  | err (msg : String)
  | okList (slides : List SlideData)
  | okSlide (slide : SlideData)
  | okDeleted (deleted_id : String)
  | okReorder (slide_id : String) (new_index : Option ℤ)
  | okCount (deleted_count : Nat)
  | okSlideId (slide_id : String)
  | okLayer (layer : SlideTextLayer)
  | okEffects (effects : ImageEffects)
  | okRender (slide_id : String) (image_data_base64 : String)
  | okExport (slides : List SlideData)
deriving DecidableEq

/-- `slides.find(s => s.id === slide_id)`. -/
def findSlide (sid : Option String) (slides : List SlideData) : Option SlideData :=
  slides.find? (fun s => sid = some s.id)

/-- Predicate of `findSlide`, for the update helpers. -/
def matchesSid (sid : Option String) (s : SlideData) : Bool := sid = some s.id

/-- `tools.create_slide`: the literal default slide of the source, with
`fresh 0` the slide id and `fresh 1` the single heading layer's id. -/
def create_slide (fresh : Nat → String) (args : ToolArgs) (slides : List SlideData) :
    ToolResponse × List SlideData :=
  let newSlide : SlideData :=
    { id := fresh 0
      image := (jsStrOpt args.background_image_url).getD
        "https://placehold.co/1080x1920/101010/FFF?text=New+Slide"
      layers := [
        { id := fresh 1, type := "heading", content := "HEADLINE",
          fontSize := some 80, fontFamily := some "TikTok Sans",
          x := 50, y := 50, selected := some false,
          alignment := some "center", width := some 80 }]
      template := "none"
      settings :=
        { fontSize := 100, fontFamily := "TikTok Sans", color := "#ffffff",
          strokeColor := "#000000", strokeWidth := 1, shadow := false,
          shadowBlur := 20, shadowOpacity := 80, positionX := 50,
          positionY := 50, alignment := "center", constrainToSlide := some true }
      effects :=
        { enabled := false, grayscale := false, brightness := 85,
          contrast := 105, saturation := 100, imageOffset := 50,
          imageOffsetY := 50 } }
  (.okSlide newSlide, slides ++ [newSlide])

/-- `newSlide.layers.forEach(l => l.id = generateId())` of
`tools.duplicate_slide`: each layer receives the next generated id,
starting at `fresh k`. -/
def renameLayers (fresh : Nat → String) (k : Nat) : List SlideTextLayer → List SlideTextLayer
  | [] => []
  | l :: rest => { l with id := fresh k } :: renameLayers fresh (k + 1) rest

/-- `tools.duplicate_slide`: deep copy (`JSON.parse(JSON.stringify(...))`),
a fresh id for the slide (`fresh 0`) and for each layer in order
(`fresh 1`, `fresh 2`, ...), appended at the end of the store. -/
def duplicate_slide (fresh : Nat → String) (args : ToolArgs) (slides : List SlideData) :
    ToolResponse × List SlideData :=
  match findSlide args.slide_id slides with
  | none => (.err "Slide not found", slides)
  | some original =>
    let newSlide : SlideData :=
      { original with
        id := fresh 0
        layers := renameLayers fresh 1 original.layers }
    (.okSlide newSlide, slides ++ [newSlide])

/-- `tools.delete_slide`. -/
def delete_slide (args : ToolArgs) (slides : List SlideData) :
    ToolResponse × List SlideData :=
  match slides.findIdx? (matchesSid args.slide_id) with
  | none => (.err "Slide not found", slides)
  | some index => (.okDeleted (args.slide_id.getD ""), slides.eraseIdx index)

/-- `tools.reorder_slide`: remove at the current index, insert at
`new_index` after the bounds check (a missing `new_index` passes both JS
`<`/`>=` checks against `undefined` and splices at position 0). -/
def reorder_slide (args : ToolArgs) (slides : List SlideData) :
    ToolResponse × List SlideData :=
  match slides.findIdx? (matchesSid args.slide_id) with
  | none => (.err "Slide not found", slides)
  | some currentIndex =>
    let oob : Bool :=
      match args.new_index with
      | some i => decide (i < 0) || decide ((slides.length : ℤ) ≤ i)
      | none => false
    if oob then (.err "Index out of bounds", slides)
    else
      match slides.get? currentIndex with
      | none => (.err "Slide not found", slides)
      | some movedSlide =>
        let rest := slides.eraseIdx currentIndex
        let pos : Nat := match args.new_index with | some i => i.toNat | none => 0
        (.okReorder (args.slide_id.getD "") args.new_index, rest.insertIdx pos movedSlide)

/-- `tools.clear_project`. -/
def clear_project (slides : List SlideData) : ToolResponse × List SlideData :=
  (.okCount slides.length, [])

/-- `tools.set_background`. -/
def set_background (args : ToolArgs) (slides : List SlideData) :
    ToolResponse × List SlideData :=
  match findSlide args.slide_id slides with
  | none => (.err "Slide not found", slides)
  | some _ =>
    (.okSlideId (args.slide_id.getD ""),
     updateFirstSlide (matchesSid args.slide_id)
       (fun s => { s with image := args.image_url.getD "" }) slides)

/-- `tools.add_text_layer`: the literal default layer of the source with
`fresh 0` as its id, pushed at the end of the slide's layer list. -/
def add_text_layer (fresh : Nat → String) (args : ToolArgs) (slides : List SlideData) :
    ToolResponse × List SlideData :=
  match findSlide args.slide_id slides with
  | none => (.err "Slide not found", slides)
  | some _ =>
    let ty := args.type.getD "body"
    let layer : SlideTextLayer :=
      { id := fresh 0, type := ty, content := args.text.getD "",
        fontSize := some (if ty = "heading" then 80 else 60),
        fontFamily := some "TikTok Sans", x := 50, y := args.y_position.getD 50,
        selected := some false, alignment := some "center", width := some 80 }
    (.okLayer layer,
     updateFirstSlide (matchesSid args.slide_id)
       (fun s => { s with layers := s.layers ++ [layer] }) slides)

/-- `tools.delete_layer`. -/
def delete_layer (args : ToolArgs) (slides : List SlideData) :
    ToolResponse × List SlideData :=
  match findSlide args.slide_id slides with
  | none => (.err "Slide not found", slides)
  | some slide =>
    match slide.layers.findIdx? (fun l => args.layer_id = some l.id) with
    | none => (.err "Layer not found", slides)
    | some layerIndex =>
      (.okDeleted (args.layer_id.getD ""),
       updateFirstSlide (matchesSid args.slide_id)
         (fun s => { s with layers := s.layers.eraseIdx layerIndex }) slides)

/-- The layer `update_text`/`update_layer_style` operate on:
`layer_id ? slide.layers.find(l => l.id === layer_id) : slide.layers[0]`
(an empty-string `layer_id` is falsy and also selects the first layer). -/
def targetLayer (layer_id : Option String) (slide : SlideData) : Option SlideTextLayer :=
  match jsStrOpt layer_id with
  | some lid => slide.layers.find? (fun l => l.id = lid)
  | none => slide.layers.head?

/-- Replace, inside a slide, the layer `targetLayer` selected, by `l2`. -/
def writeTargetLayer (layer_id : Option String) (l2 : SlideTextLayer) (s : SlideData) :
    SlideData :=
  match jsStrOpt layer_id with
  | some lid => { s with layers := updateFirstLayer (fun l => l.id = lid) (fun _ => l2) s.layers }
  | none =>
    { s with layers := match s.layers with | [] => [] | _ :: t => l2 :: t }

/-- `tools.update_text`. -/
def update_text (args : ToolArgs) (slides : List SlideData) :
    ToolResponse × List SlideData :=
  match findSlide args.slide_id slides with
  | none => (.err "Slide not found", slides)
  | some slide =>
    match targetLayer args.layer_id slide with
    | none => (.err "Layer not found", slides)
    | some layer =>
      let layer2 := match args.text with
        | some t => { layer with content := t }
        | none => layer
      (.okLayer layer2,
       updateFirstSlide (matchesSid args.slide_id)
         (writeTargetLayer args.layer_id layer2) slides)

/-- The field-by-field layer update of `tools.update_layer_style`
(`color` goes to the slide's settings, not to the layer). -/
def styleUpdatedLayer (args : ToolArgs) (layer : SlideTextLayer) : SlideTextLayer :=
  let l1 := match args.fontSize with | some v => { layer with fontSize := some v } | none => layer
  let l2 := match args.fontFamily with | some v => { l1 with fontFamily := some v } | none => l1
  let l3 := match args.x with | some v => { l2 with x := v } | none => l2
  let l4 := match args.y with | some v => { l3 with y := v } | none => l3
  let l5 := match args.width with | some v => { l4 with width := some v } | none => l4
  match args.alignment with | some v => { l5 with alignment := some v } | none => l5

/-- `tools.update_layer_style`. -/
def update_layer_style (args : ToolArgs) (slides : List SlideData) :
    ToolResponse × List SlideData :=
  match findSlide args.slide_id slides with
  | none => (.err "Slide not found", slides)
  | some slide =>
    match targetLayer args.layer_id slide with
    | none => (.err "Layer not found", slides)
    | some layer =>
      let layer2 := styleUpdatedLayer args layer
      (.okLayer layer2,
       updateFirstSlide (matchesSid args.slide_id)
         (fun s =>
           let s2 := writeTargetLayer args.layer_id layer2 s
           match args.color with
           | some c => { s2 with settings := { s2.settings with color := c } }
           | none => s2) slides)

/-- The effects update of `tools.apply_filter`: `enabled` is always set to
`true`; each of brightness/contrast/grayscale only when supplied. -/
def filteredEffects (args : ToolArgs) (e : ImageEffects) : ImageEffects :=
  let e1 := { e with enabled := true }
  let e2 := match args.brightness with | some v => { e1 with brightness := v } | none => e1
  let e3 := match args.contrast with | some v => { e2 with contrast := v } | none => e2
  match args.grayscale with | some v => { e3 with grayscale := v } | none => e3

/-- `tools.apply_filter`. -/
def apply_filter (args : ToolArgs) (slides : List SlideData) :
    ToolResponse × List SlideData :=
  match findSlide args.slide_id slides with
  | none => (.err "Slide not found", slides)
  | some slide =>
    (.okEffects (filteredEffects args slide.effects),
     updateFirstSlide (matchesSid args.slide_id)
       (fun s => { s with effects := filteredEffects args s.effects }) slides)

/-- `tools.render_slide`: the canvas rendering (and the data-URL prefix
strip) is abstracted into the `render` parameter; a rendering failure is
caught and reported as `{error: "Rendering failed: ..."}`. -/
def render_slide (render : SlideData → Except String String) (args : ToolArgs)
    (slides : List SlideData) : ToolResponse × List SlideData :=
  match findSlide args.slide_id slides with
  | none => (.err "Slide not found", slides)
  | some slide =>
    match render slide with
    | .ok b64 => (.okRender (args.slide_id.getD "") b64, slides)
    | .error m => (.err ("Rendering failed: " ++ m), slides)

/-- The names registered in the `tools` object of src/unnamed/part_000. -/
def toolNames : List String :=
  ["list_slides", "create_slide", "duplicate_slide", "delete_slide",
   "reorder_slide", "clear_project", "set_background", "add_text_layer",
   "delete_layer", "update_text", "update_layer_style", "apply_filter",
   "render_slide", "export_slides"]

/-- The `/mcp/execute` endpoint: dispatch on the tool name, 404 with an
error body for an unknown name, otherwise the tool's JSON with status 200
(error results included — only a thrown exception would give 500, and every
modelled tool returns instead of throwing). -/
def mcpExecute (render : SlideData → Except String String) (fresh : Nat → String)
    (name : String) (args : ToolArgs) (slides : List SlideData) :
    (Nat × ToolResponse) × List SlideData :=
  if name = "list_slides" then ((200, .okList slides), slides)
  else if name = "create_slide" then
    let r := create_slide fresh args slides; ((200, r.1), r.2)
  else if name = "duplicate_slide" then
    let r := duplicate_slide fresh args slides; ((200, r.1), r.2)
  else if name = "delete_slide" then
    let r := delete_slide args slides; ((200, r.1), r.2)
  else if name = "reorder_slide" then
    let r := reorder_slide args slides; ((200, r.1), r.2)
  else if name = "clear_project" then
    let r := clear_project slides; ((200, r.1), r.2)
  else if name = "set_background" then
    let r := set_background args slides; ((200, r.1), r.2)
  else if name = "add_text_layer" then
    let r := add_text_layer fresh args slides; ((200, r.1), r.2)
  else if name = "delete_layer" then
    let r := delete_layer args slides; ((200, r.1), r.2)
  else if name = "update_text" then
    let r := update_text args slides; ((200, r.1), r.2)
  else if name = "update_layer_style" then
    let r := update_layer_style args slides; ((200, r.1), r.2)
  else if name = "apply_filter" then
    let r := apply_filter args slides; ((200, r.1), r.2)
  else if name = "render_slide" then
    let r := render_slide render args slides; ((200, r.1), r.2)
  else if name = "export_slides" then ((200, .okExport slides), slides)
  else ((404, .err ("Tool '" ++ name ++ "' not found")), slides)

/-! ## Spec-side helpers and concrete fixtures

`stripLayerId` erases the only field `duplicate_slide` regenerates on a
layer, to state "all other fields are equal". The `sample...` values are
concrete instances used by the witness theorems. -/

/-- A layer with its `id` erased (set to `""`). -/
def stripLayerId (l : SlideTextLayer) : SlideTextLayer := { l with id := "" }

def sampleSettingsOff : TextSettings :=
  { fontSize := 100, fontFamily := "TikTok Sans", color := "#ffffff",
    strokeColor := "#000000", strokeWidth := 0, shadow := false,
    shadowBlur := 0, shadowOpacity := 0, positionX := 50, positionY := 50,
    alignment := "center", constrainToSlide := some false }

def sampleSettingsOn : TextSettings :=
  { sampleSettingsOff with constrainToSlide := some true }

def sampleEffects : ImageEffects :=
  { enabled := false, grayscale := false, brightness := 85, contrast := 105,
    saturation := 100, imageOffset := 50, imageOffsetY := 50 }

def sampleLayer : SlideTextLayer :=
  { id := "l1", type := "body", content := "hi", x := 50, y := 50,
    selected := some true }

def sampleLayer2 : SlideTextLayer :=
  { id := "l2", type := "body", content := "yo", x := 20, y := 70,
    selected := some true }

def sampleSlide : SlideData :=
  { id := "s1", image := "img", layers := [sampleLayer], template := "none",
    settings := sampleSettingsOff, effects := sampleEffects }

def sampleSlide2 : SlideData :=
  { sampleSlide with layers := [sampleLayer, sampleLayer2] }

def sampleGeom : LayerGeom :=
  { id := "l1", height := 10, boundaryWidthPx := 50, actualContentWidth := 20 }

/-- Geometry of a layer whose content (200px) is wider than a 100px slide. -/
def wideGeom : LayerGeom :=
  { id := "l1", height := 10, boundaryWidthPx := 80, actualContentWidth := 200 }

def sampleRender : SlideData → Except String String := fun _ => .error "no canvas"

def sampleFresh : Nat → String := fun n => "id" ++ toString n

/-! ## Helper lemmas -/

/-- If `f` fixes whatever `find?` returns, `updateFirstLayer` is the identity. -/
theorem updateFirstLayer_id (p : SlideTextLayer → Bool) (f : SlideTextLayer → SlideTextLayer) :
    ∀ lys : List SlideTextLayer, (∀ L, lys.find? p = some L → f L = L) →
      updateFirstLayer p f lys = lys := by
  intro lys
  induction lys with
  | nil => intro _; rfl
  | cons l rest ih =>
    intro h
    by_cases hl : p l
    · have hfix := h l (by simp [List.find?_cons_of_pos _ hl])
      simp [updateFirstLayer, hl, hfix]
    · have := ih (fun L hL => h L (by simp [List.find?_cons_of_neg _ hl, hL]))
      simp [updateFirstLayer, hl, this]

/-- `find?` after `updateFirstLayer`, when `f` preserves the predicate. -/
theorem updateFirstLayer_find? (p : SlideTextLayer → Bool) (f : SlideTextLayer → SlideTextLayer)
    (hp : ∀ l, p (f l) = p l) :
    ∀ (lys : List SlideTextLayer) (L : SlideTextLayer), lys.find? p = some L →
      (updateFirstLayer p f lys).find? p = some (f L) := by
  intro lys
  induction lys with
  | nil => intro L h; simp at h
  | cons l rest ih =>
    intro L h
    by_cases hl : p l
    · rw [List.find?_cons_of_pos _ hl] at h
      cases h
      simp [updateFirstLayer, hl, List.find?_cons_of_pos, hp, hl]
    · rw [List.find?_cons_of_neg _ hl] at h
      simp [updateFirstLayer, hl, List.find?_cons_of_neg, ih L h]

/-- `find?` after `updateFirstSlide`, when `f` preserves the predicate. -/
theorem updateFirstSlide_find? (p : SlideData → Bool) (f : SlideData → SlideData)
    (hp : ∀ s, p (f s) = p s) :
    ∀ (slides : List SlideData) (sl : SlideData), slides.find? p = some sl →
      (updateFirstSlide p f slides).find? p = some (f sl) := by
  intro slides
  induction slides with
  | nil => intro sl h; simp at h
  | cons s rest ih =>
    intro sl h
    by_cases hs : p s
    · rw [List.find?_cons_of_pos _ hs] at h
      cases h
      simp [updateFirstSlide, hs, List.find?_cons_of_pos, hp, hs]
    · rw [List.find?_cons_of_neg _ hs] at h
      simp [updateFirstSlide, hs, List.find?_cons_of_neg, ih sl h]

/-- A projection invariant under `f` is invariant under `updateFirstSlide`. -/
theorem updateFirstSlide_map {β : Type} (g : SlideData → β) (p : SlideData → Bool)
    (f : SlideData → SlideData) (hg : ∀ s, g (f s) = g s) :
    ∀ slides : List SlideData,
      (updateFirstSlide p f slides).map g = slides.map g := by
  intro slides
  induction slides with
  | nil => rfl
  | cons s rest ih =>
    by_cases hs : p s
    · simp [updateFirstSlide, hs, hg]
    · simp [updateFirstSlide, hs, ih]

/-- A fold whose step fixes the initial value is the initial value. -/
theorem foldl_fixed {α β : Type} (g : α → β → α) (init : α) :
    ∀ xs : List β, (∀ x ∈ xs, g init x = init) → xs.foldl g init = init := by
  intro xs
  induction xs with
  | nil => intro _; rfl
  | cons x rest ih =>
    intro h
    rw [List.foldl_cons, h x (by simp)]
    exact ih (fun y hy => h y (by simp [hy]))

/-! ## C7 — font size floor -/

/-- C7 (corrected): the code applies no 12px floor to the resolved base
size. A layer fontSize override of 5 resolves to base size 5 < 12 (and an
effective size of 5 at unit scales). -/
theorem font_floor_cex :
    resolveBaseSize (some 5) = 5 ∧ resolveBaseSize (some 5) < 12 ∧
    effectiveFontSize
      { id := "a", type := "body", content := "", x := 50, y := 50,
        fontSize := some 5 } 1 1 = 5 := by
  refine ⟨by norm_num [resolveBaseSize, jsNumOr], by norm_num [resolveBaseSize, jsNumOr], ?_⟩
  norm_num [effectiveFontSize, resolveBaseSize, jsNumOr]

/-- C7 (amended): when a layer has no fontSize override (or a zero one,
falsy in JS), the resolved base size is the default 60, which satisfies the
12px-equivalent floor; a nonzero override is used as-is, with no floor. -/
theorem font_size_resolution (fs : Option ℚ) :
    ((fs = none ∨ fs = some 0) → resolveBaseSize fs = 60 ∧ 12 ≤ resolveBaseSize fs) ∧
    (∀ v : ℚ, v ≠ 0 → resolveBaseSize (some v) = v) := by
  constructor
  · rintro (rfl | rfl) <;> norm_num [resolveBaseSize, jsNumOr]
  · intro v hv; simp [resolveBaseSize, jsNumOr, hv]

/-- Witness for `font_size_resolution` at `fs = none`. -/
theorem font_size_resolution_witness :
    ((none : Option ℚ) = none ∨ (none : Option ℚ) = some 0) ∧
    (resolveBaseSize none = 60 ∧ 12 ≤ resolveBaseSize none) :=
  ⟨Or.inl rfl, (font_size_resolution none).1 (Or.inl rfl)⟩

/-- `findSlide` is `find?` with the `matchesSid` predicate. -/
theorem findSlide_eq (sid : Option String) (slides : List SlideData) :
    findSlide sid slides = slides.find? (matchesSid sid) := rfl

/-! ## C9 — apply_filter frame conditions -/

/-- Field-by-field behaviour of the `apply_filter` effects update. -/
theorem filteredEffects_spec (args : ToolArgs) (e0 : ImageEffects) :
    (filteredEffects args e0).enabled = true ∧
    (∀ v, args.brightness = some v → (filteredEffects args e0).brightness = v) ∧
    (args.brightness = none → (filteredEffects args e0).brightness = e0.brightness) ∧
    (∀ v, args.contrast = some v → (filteredEffects args e0).contrast = v) ∧
    (args.contrast = none → (filteredEffects args e0).contrast = e0.contrast) ∧
    (∀ v, args.grayscale = some v → (filteredEffects args e0).grayscale = v) ∧
    (args.grayscale = none → (filteredEffects args e0).grayscale = e0.grayscale) ∧
    (filteredEffects args e0).saturation = e0.saturation ∧
    (filteredEffects args e0).imageOffset = e0.imageOffset ∧
    (filteredEffects args e0).imageOffsetY = e0.imageOffsetY := by
  rcases hb : args.brightness with _ | vb <;> rcases hc : args.contrast with _ | vc <;>
    rcases hg : args.grayscale with _ | vg <;>
      simp [filteredEffects, hb, hc, hg]

/-- C9 (confirmed): a successful `apply_filter` always turns
`effects.enabled` on, keeps every effect field whose parameter was not
supplied, sets those supplied, and changes nothing else on any slide. -/
theorem apply_filter_effects (args : ToolArgs) (slides : List SlideData) (sl : SlideData)
    (h : findSlide args.slide_id slides = some sl) :
    ∃ e st, apply_filter args slides = (.okEffects e, st) ∧
      e.enabled = true ∧
      (∀ v, args.brightness = some v → e.brightness = v) ∧
      (args.brightness = none → e.brightness = sl.effects.brightness) ∧
      (∀ v, args.contrast = some v → e.contrast = v) ∧
      (args.contrast = none → e.contrast = sl.effects.contrast) ∧
      (∀ v, args.grayscale = some v → e.grayscale = v) ∧
      (args.grayscale = none → e.grayscale = sl.effects.grayscale) ∧
      e.saturation = sl.effects.saturation ∧
      e.imageOffset = sl.effects.imageOffset ∧
      e.imageOffsetY = sl.effects.imageOffsetY ∧
      findSlide args.slide_id st = some { sl with effects := e } ∧
      st.map (fun s => (s.id, s.image, s.layers, s.template, s.settings)) =
        slides.map (fun s => (s.id, s.image, s.layers, s.template, s.settings)) := by
  have hrun : apply_filter args slides =
      (.okEffects (filteredEffects args sl.effects),
        updateFirstSlide (matchesSid args.slide_id)
          (fun s => { s with effects := filteredEffects args s.effects }) slides) := by
    unfold apply_filter
    rw [h]
  obtain ⟨e1, e2, e3, e4, e5, e6, e7, e8, e9, e10⟩ := filteredEffects_spec args sl.effects
  refine ⟨filteredEffects args sl.effects, _, hrun, e1, e2, e3, e4, e5, e6, e7, e8, e9, e10,
    ?_, ?_⟩
  · rw [findSlide_eq]
    exact updateFirstSlide_find? _ _ (fun s => by simp [matchesSid]) slides sl
      (by rw [← findSlide_eq]; exact h)
  · exact updateFirstSlide_map _ _ _ (fun s => by simp) slides

/-! ## C10 — duplicate_slide -/

/-- Ids assigned by `renameLayers` are the successive fresh ids. -/
theorem renameLayers_ids (fresh : Nat → String) :
    ∀ (ls : List SlideTextLayer) (k : Nat),
      (renameLayers fresh k ls).map SlideTextLayer.id =
        (List.range ls.length).map (fun i => fresh (k + i)) := by
  intro ls
  induction ls with
  | nil => intro k; rfl
  | cons l rest ih =>
    intro k
    rw [renameLayers, List.map_cons, ih (k + 1), List.length_cons,
      List.range_succ_eq_map, List.map_cons, List.map_map]
    refine congrArg₂ List.cons (congrArg fresh (by omega)) ?_
    refine List.map_congr_left (fun i _ => ?_)
    exact congrArg fresh (by omega)

/-- `renameLayers` changes nothing but the ids. -/
theorem renameLayers_strip (fresh : Nat → String) :
    ∀ (ls : List SlideTextLayer) (k : Nat),
      (renameLayers fresh k ls).map stripLayerId = ls.map stripLayerId := by
  intro ls
  induction ls with
  | nil => intro k; rfl
  | cons l rest ih =>
    intro k
    rw [renameLayers, List.map_cons, List.map_cons, ih (k + 1)]
    rfl

/-- C10 (confirmed): duplicating an existing slide appends one slide whose
id and layer ids are the freshly generated ones, every other field (image,
template, settings, effects, layer contents and order) equal to the
original's, the rest of the store — the original included — untouched. -/
theorem duplicate_slide_spec (fresh : Nat → String) (args : ToolArgs)
    (slides : List SlideData) (original : SlideData)
    (h : findSlide args.slide_id slides = some original) :
    ∃ d, duplicate_slide fresh args slides = (.okSlide d, slides ++ [d]) ∧
      d.id = fresh 0 ∧
      d.layers.map SlideTextLayer.id =
        (List.range original.layers.length).map (fun i => fresh (1 + i)) ∧
      d.image = original.image ∧ d.template = original.template ∧
      d.settings = original.settings ∧ d.effects = original.effects ∧
      d.layers.map stripLayerId = original.layers.map stripLayerId := by
  have hrun : duplicate_slide fresh args slides =
      (.okSlide { original with id := fresh 0, layers := renameLayers fresh 1 original.layers },
       slides ++ [{ original with id := fresh 0, layers := renameLayers fresh 1 original.layers }]) := by
    unfold duplicate_slide
    rw [h]
  exact ⟨_, hrun, rfl, renameLayers_ids fresh original.layers 1, rfl, rfl, rfl, rfl,
    renameLayers_strip fresh original.layers 1⟩

/-- Witness for `duplicate_slide_spec` on the concrete one-slide store. -/
theorem duplicate_slide_spec_witness :
    findSlide (some "s1") [sampleSlide] = some sampleSlide ∧
    (∃ d, duplicate_slide sampleFresh { slide_id := some "s1" } [sampleSlide] =
        (.okSlide d, [sampleSlide] ++ [d]) ∧
      d.id = sampleFresh 0 ∧
      d.layers.map SlideTextLayer.id =
        (List.range sampleSlide.layers.length).map (fun i => sampleFresh (1 + i)) ∧
      d.image = sampleSlide.image ∧ d.template = sampleSlide.template ∧
      d.settings = sampleSlide.settings ∧ d.effects = sampleSlide.effects ∧
      d.layers.map stripLayerId = sampleSlide.layers.map stripLayerId) :=
  ⟨by decide, duplicate_slide_spec sampleFresh { slide_id := some "s1" } [sampleSlide]
    sampleSlide (by decide)⟩

/-- Witness for `apply_filter_effects`: brightness 70 on the sample store. -/
theorem apply_filter_effects_witness :
    findSlide (some "s1") [sampleSlide] = some sampleSlide ∧
    (∃ e st,
      apply_filter { slide_id := some "s1", brightness := some (70 : ℚ) } [sampleSlide] =
        (.okEffects e, st) ∧
      e.enabled = true ∧
      (∀ v, (some (70 : ℚ)) = some v → e.brightness = v) ∧
      ((some (70 : ℚ)) = none → e.brightness = sampleSlide.effects.brightness) ∧
      (∀ v, (none : Option ℚ) = some v → e.contrast = v) ∧
      ((none : Option ℚ) = none → e.contrast = sampleSlide.effects.contrast) ∧
      (∀ v, (none : Option Bool) = some v → e.grayscale = v) ∧
      ((none : Option Bool) = none → e.grayscale = sampleSlide.effects.grayscale) ∧
      e.saturation = sampleSlide.effects.saturation ∧
      e.imageOffset = sampleSlide.effects.imageOffset ∧
      e.imageOffsetY = sampleSlide.effects.imageOffsetY ∧
      findSlide (some "s1") st = some { sampleSlide with effects := e } ∧
      st.map (fun s => (s.id, s.image, s.layers, s.template, s.settings)) =
        [sampleSlide].map (fun s => (s.id, s.image, s.layers, s.template, s.settings))) :=
  ⟨by decide, apply_filter_effects { slide_id := some "s1", brightness := some 70 }
    [sampleSlide] sampleSlide (by decide)⟩

/-! ## C8 — update_text / update_layer_style default to the first layer -/

/-- C8 (confirmed): with no `layer_id`, both update tools address the first
layer of the slide's layer sequence and answer success with that layer;
on a slide with no layers they answer the structured `Layer not found`
error and leave the store untouched. -/
theorem default_layer_first (args : ToolArgs) (slides : List SlideData) (sl : SlideData)
    (hlid : args.layer_id = none)
    (h : findSlide args.slide_id slides = some sl) :
    (sl.layers = [] →
      update_text args slides = (.err "Layer not found", slides) ∧
      update_layer_style args slides = (.err "Layer not found", slides)) ∧
    (∀ h0 t, sl.layers = h0 :: t →
      (update_text args slides).1 =
        .okLayer { h0 with content := args.text.getD h0.content } ∧
      findSlide args.slide_id (update_text args slides).2 =
        some { sl with layers := { h0 with content := args.text.getD h0.content } :: t } ∧
      (update_layer_style args slides).1 = .okLayer (styleUpdatedLayer args h0) ∧
      ∃ st2, findSlide args.slide_id (update_layer_style args slides).2 =
        some { sl with layers := styleUpdatedLayer args h0 :: t, settings := st2 }) := by
  constructor
  · intro hnil
    have htgt : targetLayer args.layer_id sl = none := by
      simp [targetLayer, hlid, jsStrOpt, hnil]
    constructor
    · simp only [update_text, h, htgt]
    · simp only [update_layer_style, h, htgt]
  · intro h0 t hcons
    have htgt : targetLayer args.layer_id sl = some h0 := by
      simp [targetLayer, hlid, jsStrOpt, hcons]
    have hwrite : ∀ l2 : SlideTextLayer, writeTargetLayer args.layer_id l2 sl =
        { sl with layers := l2 :: t } := by
      intro l2
      simp [writeTargetLayer, hlid, jsStrOpt, hcons]
    have hruntext : update_text args slides =
        (.okLayer { h0 with content := args.text.getD h0.content },
         updateFirstSlide (matchesSid args.slide_id)
           (writeTargetLayer args.layer_id { h0 with content := args.text.getD h0.content })
           slides) := by
      rcases htext : args.text with _ | t2 <;>
        simp only [update_text, h, htgt, htext, Option.getD_none, Option.getD_some]
    have hrunstyle : update_layer_style args slides =
        (.okLayer (styleUpdatedLayer args h0),
         updateFirstSlide (matchesSid args.slide_id)
           (fun s =>
             let s2 := writeTargetLayer args.layer_id (styleUpdatedLayer args h0) s
             match args.color with
             | some c => { s2 with settings := { s2.settings with color := c } }
             | none => s2) slides) := by
      simp only [update_layer_style, h, htgt]
    have hpres : ∀ (l2 : SlideTextLayer) (s : SlideData),
        matchesSid args.slide_id (writeTargetLayer args.layer_id l2 s) =
          matchesSid args.slide_id s := by
      intro l2 s
      cases hlid2 : jsStrOpt args.layer_id <;>
        simp [writeTargetLayer, hlid2, matchesSid]
    refine ⟨by rw [hruntext], ?_, by rw [hrunstyle], ?_⟩
    · rw [hruntext, findSlide_eq]
      have := updateFirstSlide_find? (matchesSid args.slide_id)
        (writeTargetLayer args.layer_id { h0 with content := args.text.getD h0.content })
        (hpres _) slides sl (by rw [← findSlide_eq]; exact h)
      rw [this, hwrite]
    · rcases hcol : args.color with _ | c
      · refine ⟨sl.settings, ?_⟩
        rw [hrunstyle, findSlide_eq]
        have := updateFirstSlide_find? (matchesSid args.slide_id)
          (fun s =>
            let s2 := writeTargetLayer args.layer_id (styleUpdatedLayer args h0) s
            match args.color with
            | some c => { s2 with settings := { s2.settings with color := c } }
            | none => s2)
          (fun s => by simp only [hcol]; exact hpres _ s)
          slides sl (by rw [← findSlide_eq]; exact h)
        rw [this]
        simp only [hcol]
        rw [hwrite]
      · refine ⟨{ sl.settings with color := c }, ?_⟩
        rw [hrunstyle, findSlide_eq]
        have := updateFirstSlide_find? (matchesSid args.slide_id)
          (fun s =>
            let s2 := writeTargetLayer args.layer_id (styleUpdatedLayer args h0) s
            match args.color with
            | some c => { s2 with settings := { s2.settings with color := c } }
            | none => s2)
          (fun s => by simp only [hcol]; exact hpres _ s)
          slides sl (by rw [← findSlide_eq]; exact h)
        rw [this]
        simp only [hcol]
        rw [hwrite]

/-- Witness for `default_layer_first`: `update_text` without `layer_id`
writes the first (only) layer of the sample slide. -/
theorem default_layer_first_witness :
    sampleSlide.layers = sampleLayer :: [] ∧
    ((update_text { slide_id := some "s1", text := some "new" } [sampleSlide]).1 =
        .okLayer { sampleLayer with content := (some "new").getD sampleLayer.content } ∧
      findSlide (some "s1")
          ((update_text { slide_id := some "s1", text := some "new" } [sampleSlide]).2) =
        some { sampleSlide with
          layers := { sampleLayer with content := (some "new").getD sampleLayer.content } :: [] } ∧
      (update_layer_style { slide_id := some "s1", text := some "new" } [sampleSlide]).1 =
        .okLayer (styleUpdatedLayer { slide_id := some "s1", text := some "new" } sampleLayer) ∧
      ∃ st2, findSlide (some "s1")
          ((update_layer_style { slide_id := some "s1", text := some "new" } [sampleSlide]).2) =
        some { sampleSlide with
          layers := styleUpdatedLayer { slide_id := some "s1", text := some "new" } sampleLayer :: [],
          settings := st2 }) :=
  ⟨rfl, (default_layer_first { slide_id := some "s1", text := some "new" } [sampleSlide]
    sampleSlide rfl (by decide)).2 sampleLayer [] rfl⟩

/-! ## C6 — structured errors at the tool boundary -/

/-- C6 (confirmed): at `/mcp/execute`, an unknown tool name yields the 404
not-found error body; every entity-referencing tool answers the structured
`{error}` body (HTTP 200) when the addressed slide is missing; a
`reorder_slide` with an out-of-bounds index, and a layer-addressing tool
whose layer is missing, do the same. No failure is thrown: the dispatch is
a total function into structured responses, and every error path leaves
the store untouched. -/
theorem tool_errors_structured (render : SlideData → Except String String)
    (fresh : Nat → String) (args : ToolArgs) (slides : List SlideData) :
    (∀ name, name ∉ toolNames →
      mcpExecute render fresh name args slides =
        ((404, .err ("Tool '" ++ name ++ "' not found")), slides)) ∧
    ((∀ s ∈ slides, args.slide_id ≠ some s.id) →
      ∀ name ∈ ["duplicate_slide", "delete_slide", "reorder_slide", "set_background",
          "add_text_layer", "delete_layer", "update_text", "update_layer_style",
          "apply_filter", "render_slide"],
        mcpExecute render fresh name args slides = ((200, .err "Slide not found"), slides)) ∧
    (∀ ci, slides.findIdx? (matchesSid args.slide_id) = some ci →
      ∀ i, args.new_index = some i → (i < 0 ∨ (slides.length : ℤ) ≤ i) →
      mcpExecute render fresh "reorder_slide" args slides =
        ((200, .err "Index out of bounds"), slides)) ∧
    (∀ sl, findSlide args.slide_id slides = some sl →
      ((∀ l ∈ sl.layers, args.layer_id ≠ some l.id) →
        mcpExecute render fresh "delete_layer" args slides =
          ((200, .err "Layer not found"), slides)) ∧
      (targetLayer args.layer_id sl = none →
        mcpExecute render fresh "update_text" args slides =
          ((200, .err "Layer not found"), slides) ∧
        mcpExecute render fresh "update_layer_style" args slides =
          ((200, .err "Layer not found"), slides))) := by
  refine ⟨?_, ?_, ?_, ?_⟩
  · intro name hname
    simp only [toolNames, List.mem_cons, List.not_mem_nil, or_false, not_or] at hname
    obtain ⟨h1, h2, h3, h4, h5, h6, h7, h8, h9, h10, h11, h12, h13, h14⟩ := hname
    simp [mcpExecute, h1, h2, h3, h4, h5, h6, h7, h8, h9, h10, h11, h12, h13, h14]
  · intro hmiss
    have hfind : findSlide args.slide_id slides = none := by
      rw [findSlide]
      exact List.find?_eq_none.mpr (fun s hs => by simpa using hmiss s hs)
    have hfindIdx : slides.findIdx? (matchesSid args.slide_id) = none := by
      rw [List.findIdx?_eq_none_iff]
      intro s hs
      simpa [matchesSid] using hmiss s hs
    intro name hn
    fin_cases hn
    · show (let r := duplicate_slide fresh args slides; ((200, r.1), r.2)) = _
      simp [duplicate_slide, hfind]
    · show (let r := delete_slide args slides; ((200, r.1), r.2)) = _
      simp [delete_slide, hfindIdx]
    · show (let r := reorder_slide args slides; ((200, r.1), r.2)) = _
      simp [reorder_slide, hfindIdx]
    · show (let r := set_background args slides; ((200, r.1), r.2)) = _
      simp [set_background, hfind]
    · show (let r := add_text_layer fresh args slides; ((200, r.1), r.2)) = _
      simp [add_text_layer, hfind]
    · show (let r := delete_layer args slides; ((200, r.1), r.2)) = _
      simp [delete_layer, hfind]
    · show (let r := update_text args slides; ((200, r.1), r.2)) = _
      simp [update_text, hfind]
    · show (let r := update_layer_style args slides; ((200, r.1), r.2)) = _
      simp [update_layer_style, hfind]
    · show (let r := apply_filter args slides; ((200, r.1), r.2)) = _
      simp [apply_filter, hfind]
    · show (let r := render_slide render args slides; ((200, r.1), r.2)) = _
      simp [render_slide, hfind]
  · intro ci hci i hi hoob
    have hrun : mcpExecute render fresh "reorder_slide" args slides =
        (let r := reorder_slide args slides; ((200, r.1), r.2)) := rfl
    rw [hrun]
    have : reorder_slide args slides = (.err "Index out of bounds", slides) := by
      unfold reorder_slide
      rw [hci, hi]
      rcases hoob with hlt | hge
      · simp [hlt]
      · simp [hge, not_lt.mpr, decide_eq_true]
    simp [this]
  · intro sl hsl
    constructor
    · intro hlmiss
      have hlidx : sl.layers.findIdx? (fun l => args.layer_id = some l.id) = none := by
        rw [List.findIdx?_eq_none_iff]
        intro l hl
        simpa using hlmiss l hl
      show (let r := delete_layer args slides; ((200, r.1), r.2)) = _
      simp [delete_layer, hsl, hlidx]
    · intro htgt
      constructor
      · show (let r := update_text args slides; ((200, r.1), r.2)) = _
        simp [update_text, hsl, htgt]
      · show (let r := update_layer_style args slides; ((200, r.1), r.2)) = _
        simp [update_layer_style, hsl, htgt]

/-- Witness for `tool_errors_structured`: an unknown name, a missing slide
id, an out-of-bounds reorder index and a missing layer id on the concrete
sample store. -/
theorem tool_errors_structured_witness :
    mcpExecute sampleRender sampleFresh "bogus" {} [sampleSlide] =
      ((404, .err "Tool 'bogus' not found"), [sampleSlide]) ∧
    mcpExecute sampleRender sampleFresh "duplicate_slide" { slide_id := some "zz" }
        [sampleSlide] = ((200, .err "Slide not found"), [sampleSlide]) ∧
    mcpExecute sampleRender sampleFresh "reorder_slide"
        { slide_id := some "s1", new_index := some 9 } [sampleSlide] =
      ((200, .err "Index out of bounds"), [sampleSlide]) ∧
    mcpExecute sampleRender sampleFresh "delete_layer"
        { slide_id := some "s1", layer_id := some "nope" } [sampleSlide] =
      ((200, .err "Layer not found"), [sampleSlide]) ∧
    mcpExecute sampleRender sampleFresh "update_text"
        { slide_id := some "s1", layer_id := some "nope" } [sampleSlide] =
      ((200, .err "Layer not found"), [sampleSlide]) :=
  ⟨(tool_errors_structured sampleRender sampleFresh {} [sampleSlide]).1 "bogus" (by decide),
   (tool_errors_structured sampleRender sampleFresh { slide_id := some "zz" }
     [sampleSlide]).2.1 (by decide) "duplicate_slide" (by decide),
   (tool_errors_structured sampleRender sampleFresh
     { slide_id := some "s1", new_index := some 9 } [sampleSlide]).2.2.1
     0 (by decide) 9 rfl (Or.inr (by decide)),
   ((tool_errors_structured sampleRender sampleFresh
     { slide_id := some "s1", layer_id := some "nope" } [sampleSlide]).2.2.2
     sampleSlide (by decide)).1 (by decide),
   (((tool_errors_structured sampleRender sampleFresh
     { slide_id := some "s1", layer_id := some "nope" } [sampleSlide]).2.2.2
     sampleSlide (by decide)).2 (by decide)).1⟩

/-! ## C3 — resize: fixed opposite edge, 10% width floor -/

/-- Bridges between the executable `jsMax`/`jsMin` and `max`/`min`. -/
theorem jsMax_eq_max (a b : ℚ) : jsMax a b = max a b := by
  rw [jsMax, max_def]

theorem jsMin_eq_min (a b : ℚ) : jsMin a b = min a b := by
  rw [jsMin, min_def]

/-- C3 (counterexample): with constrain-to-slide on, a right-handle resize
whose computed width exceeds 100% caps the width at 100 without adjusting
`x`, so the left edge recorded at gesture start (-30px for a layer at
x=10%, width=80% of a 100px surface) moves to -15px. -/
theorem resize_edge_shift_cex :
    (layerEdges { id := "a", type := "body", content := "hi", x := 10, y := 50, width := some 80 } 100).1 = -30 ∧
    (layerEdges (resizeMove true 100 (-30) HandleSide.right 150 { id := "a", type := "body", content := "hi", x := 10, y := 50, width := some 80 }) 100).1 = -15 ∧
    (-15 : ℚ) ≠ -30 := by
  refine ⟨?_, ?_, by norm_num⟩
  · norm_num [layerEdges, jsNumOr]
  · norm_num [layerEdges, jsNumOr, resizeMove, resizeRawGeom, jsMax, jsMin]

/-- C3 (amended): outside the width-cap branch (constrain on and computed
width above 100%), the edge opposite the grabbed handle — recorded once at
gesture start as `fixed` — is exactly preserved by the resize, and the new
width is floored at 10% of the slide width. -/
theorem resize_edge_invariance (constrain : Bool) (rectW fixed pointerRaw : ℚ)
    (side : HandleSide) (layer : SlideTextLayer)
    (hW : 0 < rectW)
    (hcap : ¬(100 < (resizeRawGeom constrain rectW fixed side pointerRaw).1 / rectW * 100 ∧
      constrain = true)) :
    ∃ w, (resizeMove constrain rectW fixed side pointerRaw layer).width = some w ∧ 10 ≤ w ∧
      (side = .right →
        (layerEdges (resizeMove constrain rectW fixed side pointerRaw layer) rectW).1 = fixed) ∧
      (side = .left →
        (layerEdges (resizeMove constrain rectW fixed side pointerRaw layer) rectW).2 = fixed) := by
  have hne : rectW ≠ 0 := ne_of_gt hW
  cases side with
  | right =>
    set p1 := if constrain then jsMax 0 (jsMin rectW pointerRaw) else pointerRaw with hp1
    set p2 := jsMax p1 (fixed + rectW * (1 / 10)) with hp2
    have hg : resizeRawGeom constrain rectW fixed .right pointerRaw =
        (p2 - fixed, fixed + (p2 - fixed) / 2) := rfl
    have hmin : rectW * (1 / 10) ≤ p2 - fixed := by
      have := jsMax_eq_max p1 (fixed + rectW * (1 / 10)) ▸ le_max_right p1 (fixed + rectW * (1 / 10))
      linarith
    have hwpos : 10 ≤ (p2 - fixed) / rectW * 100 := by
      have h2 : rectW * (1 / 10) / rectW ≤ (p2 - fixed) / rectW :=
        (div_le_div_right hW).mpr hmin
      have h3 : rectW * (1 / 10) / rectW * 100 = 10 := by
        field_simp
        ring
      have h4 := mul_le_mul_of_nonneg_right h2 (by norm_num : (0 : ℚ) ≤ 100)
      linarith
    have hcap2 : ¬(100 < (p2 - fixed) / rectW * 100 ∧ constrain = true) := by
      simpa [hg] using hcap
    have hrun : resizeMove constrain rectW fixed .right pointerRaw layer =
        { layer with width := some ((p2 - fixed) / rectW * 100),
                     x := (fixed + (p2 - fixed) / 2) / rectW * 100 } := by
      simp only [resizeMove, hg]
      rw [if_neg hcap2]
    have hwne : (p2 - fixed) / rectW * 100 ≠ 0 := by
      intro h0
      rw [h0] at hwpos
      norm_num at hwpos
    refine ⟨(p2 - fixed) / rectW * 100, by rw [hrun], hwpos, fun _ => ?_, fun h => absurd h (by decide)⟩
    rw [hrun]
    simp only [layerEdges, jsNumOr]
    rw [if_neg hwne]
    field_simp
    ring
  | left =>
    set p1 := if constrain then jsMax 0 (jsMin rectW pointerRaw) else pointerRaw with hp1
    set p2 := jsMin p1 (fixed - rectW * (1 / 10)) with hp2
    have hg : resizeRawGeom constrain rectW fixed .left pointerRaw =
        (fixed - p2, p2 + (fixed - p2) / 2) := rfl
    have hmin : rectW * (1 / 10) ≤ fixed - p2 := by
      have := jsMin_eq_min p1 (fixed - rectW * (1 / 10)) ▸ min_le_right p1 (fixed - rectW * (1 / 10))
      linarith
    have hwpos : 10 ≤ (fixed - p2) / rectW * 100 := by
      have h2 : rectW * (1 / 10) / rectW ≤ (fixed - p2) / rectW :=
        (div_le_div_right hW).mpr hmin
      have h3 : rectW * (1 / 10) / rectW * 100 = 10 := by
        field_simp
        ring
      have h4 := mul_le_mul_of_nonneg_right h2 (by norm_num : (0 : ℚ) ≤ 100)
      linarith
    have hcap2 : ¬(100 < (fixed - p2) / rectW * 100 ∧ constrain = true) := by
      simpa [hg] using hcap
    have hrun : resizeMove constrain rectW fixed .left pointerRaw layer =
        { layer with width := some ((fixed - p2) / rectW * 100),
                     x := (p2 + (fixed - p2) / 2) / rectW * 100 } := by
      simp only [resizeMove, hg]
      rw [if_neg hcap2]
    have hwne : (fixed - p2) / rectW * 100 ≠ 0 := by
      intro h0
      rw [h0] at hwpos
      norm_num at hwpos
    refine ⟨(fixed - p2) / rectW * 100, by rw [hrun], hwpos, fun h => absurd h (by decide), fun _ => ?_⟩
    rw [hrun]
    simp only [layerEdges, jsNumOr]
    rw [if_neg hwne]
    field_simp
    ring

/-- Witness for `resize_edge_invariance`: a right-handle resize on a 100px
surface with the left edge fixed at 20px. -/
theorem resize_edge_invariance_witness :
    (0 : ℚ) < 100 ∧
    ¬(100 < (resizeRawGeom false 100 20 HandleSide.right 55).1 / 100 * 100 ∧ false = true) ∧
    (∃ w, (resizeMove false 100 20 HandleSide.right 55 sampleLayer).width = some w ∧ 10 ≤ w ∧
      (HandleSide.right = .right →
        (layerEdges (resizeMove false 100 20 HandleSide.right 55 sampleLayer) 100).1 = 20) ∧
      (HandleSide.right = .left →
        (layerEdges (resizeMove false 100 20 HandleSide.right 55 sampleLayer) 100).2 = 20)) :=
  ⟨by norm_num, by simp,
   resize_edge_invariance false 100 20 55 HandleSide.right sampleLayer (by norm_num) (by simp)⟩

/-! ## C2 — drag containment -/

/-- Clamping into `[-(dL/u·100), 100 - dR/u·100]` keeps `x/100·u + dL`
inside `[0, u - (dR - dL)] + dL`-type bounds whenever the box spread
`dR - dL` fits in `u`. -/
theorem clamp_interval (u dL dR t : ℚ) (hu : 0 < u) (hbw : dR - dL ≤ u) :
    0 ≤ (jsMax (-(dL / u * 100)) (jsMin (100 - dR / u * 100) t)) / 100 * u + dL ∧
    (jsMax (-(dL / u * 100)) (jsMin (100 - dR / u * 100) t)) / 100 * u + dR ≤ u := by
  rw [jsMax_eq_max, jsMin_eq_min]
  have hu2 : u ≠ 0 := ne_of_gt hu
  have hm : -(dL / u * 100) ≤ 100 - dR / u * 100 := by
    have h1 : (dR - dL) / u ≤ 1 := (div_le_one hu).mpr hbw
    have h2 : (dR - dL) / u * 100 ≤ 100 := by nlinarith
    have h3 : (dR - dL) / u * 100 = dR / u * 100 - dL / u * 100 := by ring
    linarith [h3 ▸ h2]
  set x := max (-(dL / u * 100)) (min (100 - dR / u * 100) t) with hx
  have h1 : -(dL / u * 100) ≤ x := le_max_left _ _
  have h2 : x ≤ 100 - dR / u * 100 := max_le hm (min_le_left _ _)
  have h100 : (0 : ℚ) < 100 := by norm_num
  have e1 : -(dL / u * 100) / 100 * u = -dL := by field_simp; ring
  have e2 : (100 - dR / u * 100) / 100 * u = u - dR := by field_simp; ring
  have hmono1 : -(dL / u * 100) / 100 * u ≤ x / 100 * u :=
    mul_le_mul_of_nonneg_right ((div_le_div_right h100).mpr h1) (le_of_lt hu)
  have hmono2 : x / 100 * u ≤ (100 - dR / u * 100) / 100 * u :=
    mul_le_mul_of_nonneg_right ((div_le_div_right h100).mpr h2) (le_of_lt hu)
  constructor
  · linarith [e1 ▸ hmono1]
  · linarith [e2 ▸ hmono2]

/-- Vertical analogue of `clamp_interval`, in the exact `halfHPct` shape of
the constrain logic. -/
theorem clamp_vertical (u P h t : ℚ) (hu : 0 < u) (hbh : h + P * 2 ≤ u) :
    0 ≤ (jsMax ((h + P * 2) / u * 100 / 2)
          (jsMin (100 - (h + P * 2) / u * 100 / 2) t)) / 100 * u - h / 2 - P ∧
    (jsMax ((h + P * 2) / u * 100 / 2)
          (jsMin (100 - (h + P * 2) / u * 100 / 2) t)) / 100 * u - h / 2 - P +
      (h + P * 2) ≤ u := by
  rw [jsMax_eq_max, jsMin_eq_min]
  have hu2 : u ≠ 0 := ne_of_gt hu
  have hm : (h + P * 2) / u * 100 / 2 ≤ 100 - (h + P * 2) / u * 100 / 2 := by
    have h1 : (h + P * 2) / u ≤ 1 := (div_le_one hu).mpr hbh
    nlinarith
  set x := max ((h + P * 2) / u * 100 / 2) (min (100 - (h + P * 2) / u * 100 / 2) t) with hx
  have h1 : (h + P * 2) / u * 100 / 2 ≤ x := le_max_left _ _
  have h2 : x ≤ 100 - (h + P * 2) / u * 100 / 2 := max_le hm (min_le_left _ _)
  have h100 : (0 : ℚ) < 100 := by norm_num
  have e1 : (h + P * 2) / u * 100 / 2 / 100 * u = (h + P * 2) / 2 := by field_simp; ring
  have e2 : (100 - (h + P * 2) / u * 100 / 2) / 100 * u = u - (h + P * 2) / 2 := by
    field_simp; ring
  have hmono1 : (h + P * 2) / u * 100 / 2 / 100 * u ≤ x / 100 * u :=
    mul_le_mul_of_nonneg_right ((div_le_div_right h100).mpr h1) (le_of_lt hu)
  have hmono2 : x / 100 * u ≤ (100 - (h + P * 2) / u * 100 / 2) / 100 * u :=
    mul_le_mul_of_nonneg_right ((div_le_div_right h100).mpr h2) (le_of_lt hu)
  constructor
  · linarith [e1 ▸ hmono1]
  · linarith [e2 ▸ hmono2]

/-- The alignment deltas always spread to the padded content width. -/
theorem alignDeltas_spread (geom : LayerGeom) (align : String) (P : ℚ) :
    (alignDeltas geom align P).2 - (alignDeltas geom align P).1 =
      geom.actualContentWidth + P * 2 := by
  unfold alignDeltas
  by_cases hA : align = "left"
  · simp only [hA, if_true, if_pos]
    ring
  · by_cases hB : align = "right"
    · simp [hA, hB]
      ring
    · simp [hA, hB]
      ring

/-- The rendered box's left edge is the pixel center plus the alignment
delta-left of the containment logic. -/
theorem renderedBox_origin (geom : LayerGeom) (align : String) (refW refH x y : ℚ) :
    (renderedBox geom align refW refH x y).1 =
      x / 100 * refW + (alignDeltas geom align (12 * (refW / 1000))).1 := by
  unfold renderedBox alignDeltas
  by_cases hA : align = "left"
  · simp [hA]
    ring
  · by_cases hB : align = "right"
    · simp [hA, hB]
      ring
    · simp [hA, hB]
      ring

/-- C2 (amended): when the rendered box (tight content width plus fixed
padding, alignment-aware) fits inside the render surface, the containment
clamp of the drag branch places the box inside `[0,W]×[0,H]` for every
target anchor, i.e. for every reachable pointer delta. -/
theorem constrain_containment (geom : LayerGeom) (align : String) (refW refH tX tY : ℚ)
    (hW : 0 < refW) (hH : 0 < refH)
    (hfitW : geom.actualContentWidth + 12 * (refW / 1000) * 2 ≤ refW)
    (hfitH : geom.height + 12 * (refW / 1000) * 2 ≤ refH) :
    0 ≤ (renderedBox geom align refW refH (constrainXY geom align refW refH tX tY).1
          (constrainXY geom align refW refH tX tY).2).1 ∧
    (renderedBox geom align refW refH (constrainXY geom align refW refH tX tY).1
          (constrainXY geom align refW refH tX tY).2).1 +
      (renderedBox geom align refW refH (constrainXY geom align refW refH tX tY).1
          (constrainXY geom align refW refH tX tY).2).2.2.1 ≤ refW ∧
    0 ≤ (renderedBox geom align refW refH (constrainXY geom align refW refH tX tY).1
          (constrainXY geom align refW refH tX tY).2).2.1 ∧
    (renderedBox geom align refW refH (constrainXY geom align refW refH tX tY).1
          (constrainXY geom align refW refH tX tY).2).2.1 +
      (renderedBox geom align refW refH (constrainXY geom align refW refH tX tY).1
          (constrainXY geom align refW refH tX tY).2).2.2.2 ≤ refH := by
  have hc1 : (constrainXY geom align refW refH tX tY).1 =
      jsMax (-((alignDeltas geom align (12 * (refW / 1000))).1 / refW * 100))
        (jsMin (100 - (alignDeltas geom align (12 * (refW / 1000))).2 / refW * 100) tX) := rfl
  have hc2 : (constrainXY geom align refW refH tX tY).2 =
      jsMax ((geom.height + 12 * (refW / 1000) * 2) / refH * 100 / 2)
        (jsMin (100 - (geom.height + 12 * (refW / 1000) * 2) / refH * 100 / 2) tY) := rfl
  have hbW : ∀ x y : ℚ, (renderedBox geom align refW refH x y).2.2.1 =
      geom.actualContentWidth + 12 * (refW / 1000) * 2 := fun x y => rfl
  have hbH : ∀ x y : ℚ, (renderedBox geom align refW refH x y).2.2.2 =
      geom.height + 12 * (refW / 1000) * 2 := fun x y => rfl
  have hbY : ∀ x y : ℚ, (renderedBox geom align refW refH x y).2.1 =
      y / 100 * refH - geom.height / 2 - 12 * (refW / 1000) := fun x y => rfl
  have hspread := alignDeltas_spread geom align (12 * (refW / 1000))
  have hbw : (alignDeltas geom align (12 * (refW / 1000))).2 -
      (alignDeltas geom align (12 * (refW / 1000))).1 ≤ refW := by
    rw [hspread]
    linarith
  have hX := clamp_interval refW (alignDeltas geom align (12 * (refW / 1000))).1
    (alignDeltas geom align (12 * (refW / 1000))).2 tX hW hbw
  have hY := clamp_vertical refH (12 * (refW / 1000)) geom.height tY hH (by linarith)
  rw [renderedBox_origin, hbW, hbH, hbY, hc1, hc2]
  refine ⟨?_, ?_, ?_, ?_⟩
  · linarith [hX.1]
  · linarith [hX.2, hspread]
  · linarith [hY.1]
  · linarith [hY.2]

/-- C2 (counterexample): with constrain-to-slide on, a drag of a
center-aligned layer whose content (200px) is wider than the slide (100px)
clamps the anchor to the degenerate point x = 101.2%, where the rendered
box still ends at 202.4px — outside `[0, 100]`. The claim's unconditional
containment is false. -/
theorem constrain_overflow_cex :
    ((dragMove { sampleSlide with settings := sampleSettingsOn } [("l1", 50, 50)]
        [wideGeom] 100 100 0 0).1.map SlideTextLayer.x = [506 / 5]) ∧
    (renderedBox wideGeom "center" 100 100 (506 / 5) 50).1 +
      (renderedBox wideGeom "center" 100 100 (506 / 5) 50).2.2.1 = 1012 / 5 ∧
    (100 : ℚ) < 1012 / 5 := by
  refine ⟨?_, ?_, by norm_num⟩
  · simp [dragMove, snapDelta, snapTargetX, applyDragEntry, updateFirstLayer,
      constrainXY, alignDeltas, jsMax, jsMin, sampleSlide, sampleSettingsOn,
      sampleSettingsOff, sampleLayer, wideGeom]
    norm_num
  · simp [renderedBox, wideGeom]
    norm_num

/-- Witness for `constrain_containment` with a fitting 20px-wide content
box on a 100×100 surface and a far off-surface target (200, -50). -/
theorem constrain_containment_witness :
    (0 : ℚ) < 100 ∧
    sampleGeom.actualContentWidth + 12 * ((100 : ℚ) / 1000) * 2 ≤ 100 ∧
    sampleGeom.height + 12 * ((100 : ℚ) / 1000) * 2 ≤ 100 ∧
    (0 ≤ (renderedBox sampleGeom "center" 100 100
          (constrainXY sampleGeom "center" 100 100 200 (-50)).1
          (constrainXY sampleGeom "center" 100 100 200 (-50)).2).1 ∧
      (renderedBox sampleGeom "center" 100 100
          (constrainXY sampleGeom "center" 100 100 200 (-50)).1
          (constrainXY sampleGeom "center" 100 100 200 (-50)).2).1 +
        (renderedBox sampleGeom "center" 100 100
          (constrainXY sampleGeom "center" 100 100 200 (-50)).1
          (constrainXY sampleGeom "center" 100 100 200 (-50)).2).2.2.1 ≤ 100 ∧
      0 ≤ (renderedBox sampleGeom "center" 100 100
          (constrainXY sampleGeom "center" 100 100 200 (-50)).1
          (constrainXY sampleGeom "center" 100 100 200 (-50)).2).2.1 ∧
      (renderedBox sampleGeom "center" 100 100
          (constrainXY sampleGeom "center" 100 100 200 (-50)).1
          (constrainXY sampleGeom "center" 100 100 200 (-50)).2).2.1 +
        (renderedBox sampleGeom "center" 100 100
          (constrainXY sampleGeom "center" 100 100 200 (-50)).1
          (constrainXY sampleGeom "center" 100 100 200 (-50)).2).2.2.2 ≤ 100) :=
  ⟨by norm_num, by norm_num [sampleGeom], by norm_num [sampleGeom],
   constrain_containment sampleGeom "center" 100 100 200 (-50) (by norm_num) (by norm_num)
     (by norm_num [sampleGeom]) (by norm_num [sampleGeom])⟩

/-! ## C5 — snap-to-center of a single dragged layer -/

/-- C5 (counterexample): with constrain-to-slide on, a target outside the
snap threshold is NOT given the raw delta: dragging the sample layer from
x=50 by +45 yields x = 88.8 (clamped into the envelope), not 95. -/
theorem snap_clamped_cex :
    ((dragMove { sampleSlide with settings := sampleSettingsOn, layers := [{ sampleLayer with y := 30 }] } [("l1", 50, 30)]
        [sampleGeom] 100 100 45 0).1.map SlideTextLayer.x = [444 / 5]) ∧
    (444 / 5 : ℚ) ≠ 50 + 45 := by
  constructor
  · simp [dragMove, snapDelta, snapTargetX, applyDragEntry, updateFirstLayer,
      constrainXY, alignDeltas, jsMax, jsMin, sampleSlide, sampleSettingsOn,
      sampleSettingsOff, sampleLayer, sampleGeom]
    norm_num
  · norm_num

/-- C5 (amended): with constrain-to-slide off, for a single selected
center-aligned layer with available geometry, a drag whose target x lands
strictly within 1.5% of 50 sets x exactly to 50 and raises the horizontal
snap indicator; outside the threshold the raw delta is applied and the
indicator stays down. (With constraining on, the emitted x is additionally
clamped into the containment envelope — see `snap_clamped_cex`.) -/
theorem snap_center_spec (slide : SlideData) (id : String)
    (px py rawDx rawDy refW refH : ℚ) (geos : List LayerGeom)
    (L : SlideTextLayer) (geom : LayerGeom)
    (hW : 0 < refW)
    (hc : slide.settings.constrainToSlide.getD false = false)
    (hL : slide.layers.find? (fun l => l.id = id) = some L)
    (halign : L.alignment.getD "center" = "center")
    (hgeom : geos.find? (fun g => g.id = id) = some geom) :
    (|px + rawDx - 50| < 3 / 2 →
      ((dragMove slide [(id, px, py)] geos refW refH rawDx rawDy).1.find?
          (fun l => l.id = id)).map SlideTextLayer.x = some 50 ∧
      (dragMove slide [(id, px, py)] geos refW refH rawDx rawDy).2.1 = true) ∧
    (3 / 2 ≤ |px + rawDx - 50| →
      ((dragMove slide [(id, px, py)] geos refW refH rawDx rawDy).1.find?
          (fun l => l.id = id)).map SlideTextLayer.x = some (px + rawDx) ∧
      (dragMove slide [(id, px, py)] geos refW refH rawDx rawDy).2.1 = false) := by
  have htgt : snapTargetX slide geom refW id = 50 := by
    unfold snapTargetX
    rw [hL]
    simp [halign]
  have hfind := updateFirstLayer_find? (fun l => l.id = id)
  constructor
  · intro hlt
    have hb1 : (|px + rawDx - 50| < 3 / 2) = True := eq_true hlt
    have hb : snapDelta slide [(id, px, py)] geos refW rawDx rawDy =
        ((50 : ℚ) - px,
          if decide (|py + rawDy - 50| < 3 / 2) = true then 50 - py else rawDy,
          true, decide (|py + rawDy - 50| < 3 / 2)) := by
      simp only [snapDelta, hgeom, htgt, hb1, decide_True, if_true]
    have hdm : dragMove slide [(id, px, py)] geos refW refH rawDx rawDy =
        (updateFirstLayer (fun l => l.id = id)
          (fun l => { l with x := px + (50 - px), y := py + (if decide (|py + rawDy - 50| < 3 / 2) = true then 50 - py else rawDy) }) slide.layers,
         true, decide (|py + rawDy - 50| < 3 / 2)) := by
      simp only [dragMove, hb, hc, applyDragEntry, List.foldl_cons, List.foldl_nil,
        Bool.false_eq_true, if_false]
    rw [hdm]
    constructor
    · rw [hfind (fun l => { l with x := px + (50 - px), y := py + (if decide (|py + rawDy - 50| < 3 / 2) = true then 50 - py else rawDy) }) (fun l => rfl) slide.layers L hL]
      simp only [Option.map_some', Option.some.injEq]
      ring
    · rfl
  · intro hge
    have hb1 : (|px + rawDx - 50| < 3 / 2) = False := eq_false (not_lt.mpr hge)
    have hb : snapDelta slide [(id, px, py)] geos refW rawDx rawDy =
        (rawDx,
          if decide (|py + rawDy - 50| < 3 / 2) = true then 50 - py else rawDy,
          false, decide (|py + rawDy - 50| < 3 / 2)) := by
      simp only [snapDelta, hgeom, htgt, hb1, decide_False, Bool.false_eq_true, if_false]
    have hdm : dragMove slide [(id, px, py)] geos refW refH rawDx rawDy =
        (updateFirstLayer (fun l => l.id = id)
          (fun l => { l with x := px + rawDx, y := py + (if decide (|py + rawDy - 50| < 3 / 2) = true then 50 - py else rawDy) }) slide.layers,
         false, decide (|py + rawDy - 50| < 3 / 2)) := by
      simp only [dragMove, hb, hc, applyDragEntry, List.foldl_cons, List.foldl_nil,
        Bool.false_eq_true, if_false]
    rw [hdm]
    constructor
    · rw [hfind (fun l => { l with x := px + rawDx, y := py + (if decide (|py + rawDy - 50| < 3 / 2) = true then 50 - py else rawDy) }) (fun l => rfl) slide.layers L hL]
      rfl
    · rfl

/-- Witness for `snap_center_spec`: a layer at x=49 dragged with zero delta
lands within the threshold and snaps to exactly 50. -/
theorem snap_center_spec_witness :
    |(49 : ℚ) + 0 - 50| < 3 / 2 ∧
    (((dragMove { sampleSlide with layers := [{ sampleLayer with x := 49, y := 10 }] } [("l1", 49, 10)] [sampleGeom] 100 100 0 0).1.find?
        (fun l => l.id = "l1")).map SlideTextLayer.x = some 50 ∧
      (dragMove { sampleSlide with layers := [{ sampleLayer with x := 49, y := 10 }] } [("l1", 49, 10)] [sampleGeom] 100 100 0 0).2.1 = true) :=
  ⟨by norm_num,
   (snap_center_spec { sampleSlide with layers := [{ sampleLayer with x := 49, y := 10 }] }
     "l1" 49 10 0 0 100 100 [sampleGeom] { sampleLayer with x := 49, y := 10 } sampleGeom
     (by norm_num) rfl (by decide) rfl rfl).1 (by norm_num)⟩

/-! ## C4 — zero-delta drag -/

/-- C4 (counterexample): a pointer move with delta exactly 0 does not leave
the layer in place: a single selected layer at x=49 is within the 1.5%
snap threshold of the center target, so the zero-delta move sets x to 50. -/
theorem zero_delta_snap_cex :
    ((dragMove { sampleSlide with layers := [{ sampleLayer with x := 49, y := 10 }] } [("l1", 49, 10)] [sampleGeom] 100 100 0 0).1.map SlideTextLayer.x = [50]) ∧
    ((49 : ℚ) ≠ 50) := by
  constructor
  · simp [dragMove, snapDelta, snapTargetX, applyDragEntry, updateFirstLayer,
      sampleSlide, sampleSettingsOff, sampleLayer, sampleGeom]
    norm_num
  · norm_num

/-- C4 (amended): a zero-delta drag move leaves every selected layer's
`(x, y)` unchanged provided snapping does not engage (the snap step
returns the raw zero delta with no indicator) and containment clamping is
off; the recorded start positions are the layers' current positions. -/
theorem zero_delta_drag_fixed (slide : SlideData) (ips : List (String × ℚ × ℚ))
    (geos : List LayerGeom) (refW refH : ℚ)
    (hc : slide.settings.constrainToSlide.getD false = false)
    (hsnap : snapDelta slide ips geos refW 0 0 = (0, 0, false, false))
    (hpos : ∀ e ∈ ips, ∀ L ∈ slide.layers, L.id = e.1 → L.x = e.2.1 ∧ L.y = e.2.2) :
    dragMove slide ips geos refW refH 0 0 = (slide.layers, false, false) := by
  unfold dragMove
  rw [hsnap, hc]
  dsimp only
  have hfold : ips.foldl (applyDragEntry false geos refW refH 0 0) slide.layers =
      slide.layers := by
    apply foldl_fixed
    intro e he
    unfold applyDragEntry
    apply updateFirstLayer_id
    intro L hL
    have hmem := List.mem_of_find?_eq_some hL
    have hid : L.id = e.1 := by simpa using List.find?_some hL
    obtain ⟨hx, hy⟩ := hpos e he L hmem hid
    cases L
    simp_all
  rw [hfold]

/-- Witness for `zero_delta_drag_fixed`: two selected layers (snap skipped)
with containment off keep their positions under a zero-delta move. -/
theorem zero_delta_drag_fixed_witness :
    snapDelta sampleSlide2 [("l1", 50, 50), ("l2", 20, 70)] [sampleGeom] 100 0 0 =
      (0, 0, false, false) ∧
    dragMove sampleSlide2 [("l1", 50, 50), ("l2", 20, 70)] [sampleGeom] 100 100 0 0 =
      (sampleSlide2.layers, false, false) :=
  ⟨rfl, zero_delta_drag_fixed sampleSlide2 [("l1", 50, 50), ("l2", 20, 70)] [sampleGeom]
    100 100 rfl rfl (by decide)⟩

/-! ## C1 — word wrap -/

/-- Appending one more word to a nonempty group extends the space-join. -/
theorem joinSpace_append (w : List Char) :
    ∀ g : List (List Char), g ≠ [] → joinSpace (g ++ [w]) = joinSpace g ++ ' ' :: w := by
  intro g
  induction g with
  | nil => intro h; cases h rfl
  | cons a g ih =>
    intro _
    cases g with
    | nil => simp [joinSpace]
    | cons b g2 =>
      have h1 : joinSpace (a :: b :: (g2 ++ [w])) = a ++ ' ' :: joinSpace (b :: (g2 ++ [w])) := rfl
      have h2 : joinSpace (a :: b :: g2) = a ++ ' ' :: joinSpace (b :: g2) := rfl
      calc joinSpace ((a :: b :: g2) ++ [w])
          = a ++ ' ' :: joinSpace ((b :: g2) ++ [w]) := by
            simp only [List.cons_append]
            exact h1
        _ = a ++ ' ' :: (joinSpace (b :: g2) ++ ' ' :: w) := by rw [ih (by simp)]
        _ = (a ++ ' ' :: joinSpace (b :: g2)) ++ ' ' :: w := by simp
        _ = joinSpace (a :: b :: g2) ++ ' ' :: w := by rw [h2]

/-- The greedy wrap loop partitions its word stream into nonempty
contiguous groups; each produced line is the space-join of its group, and
any group of two or more words measured within budget. -/
theorem wrapWords_spec (m : List Char → ℚ) (b : ℚ) :
    ∀ (ws : List (List Char)) (cur : List Char) (g0 : List (List Char)),
      g0 ≠ [] → cur = joinSpace g0 → (2 ≤ g0.length → m cur ≤ b) →
      ∃ P : List (List (List Char)),
        P.flatten = g0 ++ ws ∧
        wrapWords m b cur ws = P.map joinSpace ∧
        ∀ g ∈ P, g ≠ [] ∧ (2 ≤ g.length → m (joinSpace g) ≤ b) := by
  intro ws
  induction ws with
  | nil =>
    intro cur g0 hg hcur hbud
    refine ⟨[g0], by simp, by simp [wrapWords, hcur], ?_⟩
    intro g hgm
    simp only [List.mem_singleton] at hgm
    subst hgm
    exact ⟨hg, fun h2 => hcur ▸ hbud h2⟩
  | cons w ws ih =>
    intro cur g0 hg hcur hbud
    by_cases ht : m (cur ++ ' ' :: w) ≤ b
    · obtain ⟨P, hflat, heq, hall⟩ := ih (cur ++ ' ' :: w) (g0 ++ [w]) (by simp)
        (by rw [joinSpace_append w g0 hg, hcur]) (fun _ => ht)
      refine ⟨P, ?_, ?_, hall⟩
      · rw [hflat]
        simp
      · rw [wrapWords]
        simp only [ht, if_true]
        exact heq
    · obtain ⟨P, hflat, heq, hall⟩ := ih w [w] (by simp) (by simp [joinSpace])
        (by intro h2; simp at h2)
      refine ⟨g0 :: P, ?_, ?_, ?_⟩
      · simp [hflat]
      · rw [wrapWords]
        simp only [ht, if_false]
        rw [heq, hcur]
        rfl
      · intro g hgm
        rcases List.mem_cons.mp hgm with rfl | hm
        · exact ⟨hg, fun h2 => hcur ▸ hbud h2⟩
        · exact hall g hm

/-- `split(/\s+/)` never yields an empty token list. -/
theorem swAux_ne_nil : ∀ (l : List Char) (inRun : Bool) (acc : List Char),
    swAux inRun acc l ≠ [] := by
  intro l
  induction l with
  | nil => intro inRun acc; simp [swAux]
  | cons c rest ih =>
    intro inRun acc
    by_cases h : isWs c
    · cases inRun with
      | true => simpa [swAux, h] using ih true []
      | false => simp [swAux, h]
    · simpa [swAux, h] using ih false (c :: acc)

theorem splitWs_ne_nil (p : List Char) : splitWs p ≠ [] := swAux_ne_nil p false []

/-- An empty token of the whitespace split comes from an empty input, a
leading whitespace character, or a trailing whitespace character. -/
theorem swAux_empty_mem : ∀ (l : List Char) (inRun : Bool) (acc : List Char),
    [] ∈ swAux inRun acc l →
    (l = [] ∧ acc = []) ∨
    (acc = [] ∧ inRun = false ∧ ∃ c, l.head? = some c ∧ isWs c = true) ∨
    (∃ c, l.getLast? = some c ∧ isWs c = true) := by
  intro l
  induction l with
  | nil =>
    intro inRun acc h
    simp only [swAux, List.mem_singleton] at h
    exact Or.inl ⟨rfl, List.reverse_eq_nil_iff.mp h.symm⟩
  | cons c rest ih =>
    intro inRun acc h
    by_cases hw : isWs c
    · cases inRun with
      | true =>
        simp only [swAux, hw, if_true] at h
        rcases ih true [] h with ⟨hrest, -⟩ | ⟨-, hfalse, -⟩ | ⟨d, hd, hwd⟩
        · exact Or.inr (Or.inr ⟨c, by simp [hrest], hw⟩)
        · cases hfalse
        · refine Or.inr (Or.inr ⟨d, ?_, hwd⟩)
          cases rest with
          | nil => simp at hd
          | cons e t => rw [List.getLast?_cons_cons]; exact hd
      | false =>
        simp only [swAux, hw, if_true, Bool.false_eq_true, if_false] at h
        rcases List.mem_cons.mp h with hnil | hmem
        · exact Or.inr (Or.inl ⟨List.reverse_eq_nil_iff.mp hnil.symm, rfl, c, rfl, hw⟩)
        · rcases ih true [] hmem with ⟨hrest, -⟩ | ⟨-, hfalse, -⟩ | ⟨d, hd, hwd⟩
          · exact Or.inr (Or.inr ⟨c, by simp [hrest], hw⟩)
          · cases hfalse
          · refine Or.inr (Or.inr ⟨d, ?_, hwd⟩)
            cases rest with
            | nil => simp at hd
            | cons e t => rw [List.getLast?_cons_cons]; exact hd
    · simp only [swAux, hw, Bool.false_eq_true, if_false] at h
      rcases ih false (c :: acc) h with ⟨-, habs⟩ | ⟨habs, -, -⟩ | ⟨d, hd, hwd⟩
      · cases habs
      · cases habs
      · refine Or.inr (Or.inr ⟨d, ?_, hwd⟩)
        cases rest with
        | nil => simp at hd
        | cons e t => rw [List.getLast?_cons_cons]; exact hd

/-- Location of an empty token of `splitWs`. -/
theorem splitWs_empty_token (p : List Char) (h : [] ∈ splitWs p) :
    p = [] ∨ (∃ c, p.head? = some c ∧ isWs c = true) ∨
      (∃ c, p.getLast? = some c ∧ isWs c = true) := by
  rcases swAux_empty_mem p false [] h with ⟨hp, -⟩ | ⟨-, -, hh⟩ | hl
  · exact Or.inl hp
  · exact Or.inr (Or.inl hh)
  · exact Or.inr (Or.inr hl)

/-- C1 (amended): every line the wrap produces is the space-join of a
nonempty contiguous group of whitespace-split word tokens of one paragraph
(words are never split mid-word); a line of two or more words measures
within the wrap budget (a single-word line may exceed it); and a line is
empty only for a paragraph that is empty or starts or ends with
whitespace (in particular, fully empty content yields one empty line). -/
theorem wrap_lines_spec (m : List Char → ℚ) (b : ℚ) (content line : List Char)
    (hmem : line ∈ wrapContent m b content) :
    ∃ p ∈ splitNl content, ∃ g : List (List Char),
      g ≠ [] ∧ g <:+: splitWs p ∧ line = joinSpace g ∧
      (2 ≤ g.length → m line ≤ b) ∧
      (line = [] → p = [] ∨ (∃ c, p.head? = some c ∧ isWs c = true) ∨
        (∃ c, p.getLast? = some c ∧ isWs c = true)) := by
  unfold wrapContent at hmem
  rw [List.mem_flatten] at hmem
  obtain ⟨L, hLmem, hline⟩ := hmem
  rw [List.mem_map] at hLmem
  obtain ⟨p, hp, rfl⟩ := hLmem
  refine ⟨p, hp, ?_⟩
  unfold wrapParagraph at hline
  rcases hsw : splitWs p with _ | ⟨w, ws⟩
  · exact absurd hsw (splitWs_ne_nil p)
  rw [hsw] at hline
  have hline2 : line ∈ wrapWords m b w ws := hline
  obtain ⟨P, hflat, heq, hall⟩ := wrapWords_spec m b ws w [w] (by simp) (by simp [joinSpace])
    (by intro h2; simp at h2)
  rw [heq, List.mem_map] at hline2
  obtain ⟨g, hgP, rfl⟩ := hline2
  obtain ⟨hgne, hbud⟩ := hall g hgP
  have hginf : g <:+: w :: ws := by
    have h2 := List.infix_of_mem_flatten hgP
    rw [hflat] at h2
    simpa using h2
  refine ⟨g, hgne, hginf, rfl, hbud, ?_⟩
  intro hnil
  have hg1 : g = [[]] := by
    cases g with
    | nil => cases hgne rfl
    | cons x t =>
      cases t with
      | nil =>
        simp [joinSpace] at hnil
        rw [hnil]
      | cons y t2 =>
        exfalso
        have hjs : joinSpace (x :: y :: t2) = x ++ ' ' :: joinSpace (y :: t2) := rfl
        rw [hjs] at hnil
        simp at hnil
  have hmem2 : ([] : List Char) ∈ splitWs p := by
    rw [hsw]
    exact hginf.subset (by rw [hg1]; exact List.mem_singleton_self [])
  exact splitWs_empty_token p hmem2

/-- C1 (counterexample): the claim's "lines are non-empty except for fully
empty content" fails: the content `"a\n\nb"` is not empty, yet its empty
middle paragraph produces an empty line (with any measure, here constant
0, and budget 10). -/
theorem wrap_empty_line_cex :
    [] ∈ wrapContent (fun _ => (0 : ℚ)) 10 ("a\n\nb".toList) ∧
    "a\n\nb".toList ≠ [] := by
  exact ⟨by decide, by decide⟩

/-- Witness for `wrap_lines_spec`: the line `"ab"` of wrapping `"ab cd"`
under a measure that forces a break. -/
theorem wrap_lines_spec_witness :
    "ab".toList ∈ wrapContent (fun _ => (5 : ℚ)) 3 ("ab cd".toList) ∧
    (∃ p ∈ splitNl ("ab cd".toList), ∃ g : List (List Char),
      g ≠ [] ∧ g <:+: splitWs p ∧ "ab".toList = joinSpace g ∧
      (2 ≤ g.length → (fun _ => (5 : ℚ)) "ab".toList ≤ 3) ∧
      ("ab".toList = [] → p = [] ∨ (∃ c, p.head? = some c ∧ isWs c = true) ∨
        (∃ c, p.getLast? = some c ∧ isWs c = true))) :=
  ⟨by decide, wrap_lines_spec (fun _ => (5 : ℚ)) 3 ("ab cd".toList) ("ab".toList) (by decide)⟩
